import Mathlib

/-!
Shallow embedding of the xlsx-read crate (src/lib.rs, src/errors.rs).

Bytes are modelled as `List Nat`, archive entries as an association list
from entry name to byte content, and the Rust `HashMap`s as association
lists with insert-replaces semantics (`HashMap` iteration order is
unspecified in Rust; the model fixes the insertion order of the list).
The external XML tokenizer (xml-rs) is an abstract parameter
`tok : List Nat → List XmlEvent`; it receives exactly the bytes that
follow the cursor position `skip_bom` leaves behind.  Rust `Result` plus
the possibility of a library panic (`HashMap`/`Vec` indexing) is modelled
by the three-way `Outcome` type.
-/

/-- Error kinds, mirroring the error-chain foreign links in src/errors.rs:
integer parse, float parse, zip archive (missing entry), XML read. -/
inductive XlsxError where
  | parseInt
  | parseFloat
  | zip
  | xmlRead
deriving DecidableEq, Repr

/-- Result of running a piece of Rust code: `ok`, a returned `Err` value,
or a panic (out-of-bounds `Vec` index, missing `HashMap` key). -/
inductive Outcome (α : Type) where
  | ok (a : α)
  | error (e : XlsxError)
  | panicked
deriving DecidableEq, Repr

/-- Whether the outcome is a returned error value (not a panic). -/
def Outcome.isError {α : Type} : Outcome α → Bool
  | .error _ => true
  | _ => false

/-- Whether the outcome is a success. -/
def Outcome.isOk {α : Type} : Outcome α → Bool
  | .ok _ => true
  | _ => false

/-- ASCII decimal digit test, `c.is_ascii_digit()` in Rust. -/
def isDigitChar (c : Char) : Bool := 48 ≤ c.toNat && c.toNat ≤ 57

/-- Value of an ASCII digit character. -/
def digitVal (c : Char) : Nat := c.toNat - 48

/-- Decimal digits to a natural number, most significant first. -/
def digitsToNat (cs : List Char) : Nat :=
  cs.foldl (fun acc c => 10 * acc + digitVal c) 0

/-- Model of Rust `usize::from_str` (64-bit): optional leading `+`, one or
more ASCII digits, value below 2^64; anything else is a parse failure. -/
def parse_u64 (s : String) : Option Nat :=
  let cs := match s.data with
    | '+' :: rest => rest
    | cs => cs
  if !cs.isEmpty && cs.all isDigitChar then
    let n := digitsToNat cs
    if n < 2 ^ 64 then some n else none
  else none

/-- Model of Rust `i64::from_str`: optional sign, one or more ASCII
digits, value within the signed 64-bit range. -/
def parse_i64 (s : String) : Option Int :=
  let sc : Int × List Char := match s.data with
    | '+' :: rest => (1, rest)
    | '-' :: rest => (-1, rest)
    | cs => (1, cs)
  if !sc.2.isEmpty && sc.2.all isDigitChar then
    let v : Int := sc.1 * digitsToNat sc.2
    if -(2 ^ 63) ≤ v && v < 2 ^ 63 then some v else none
  else none

/-- Model of Rust `f64::from_str` on finite decimal literals: optional
sign, digits with an optional fractional part (`3.14`, `.5`, `5.`).  The
parsed value is kept as an exact rational; IEEE rounding, exponent
notation and the non-finite literals (`inf`, `NaN`) are outside the
model — no claim evaluates the parser on such inputs. -/
def parse_f64 (s : String) : Option Rat :=
  let sc : Rat × List Char := match s.data with
    | '+' :: rest => (1, rest)
    | '-' :: rest => (-1, rest)
    | cs => (1, cs)
  let intPart := sc.2.takeWhile isDigitChar
  let rest := sc.2.drop intPart.length
  match rest with
  | [] => if intPart.isEmpty then none else some (sc.1 * digitsToNat intPart)
  | '.' :: fracPart =>
    if fracPart.all isDigitChar && !(intPart.isEmpty && fracPart.isEmpty) then
      some (sc.1 * (digitsToNat (intPart ++ fracPart) : Rat) / 10 ^ fracPart.length)
    else none
  | _ => none

/-- String suffix test, Rust `str::ends_with`, on the character data. -/
def endsWithS (s suffix : String) : Bool := suffix.data.isSuffixOf s.data

/-- Removes one leading `/`, as `rel_target.remove(0)` after
`starts_with("/")` does in `load_relations` (src/lib.rs:121-123). -/
def stripLeadingSlash (s : String) : String :=
  match s.data with
  | '/' :: rest => String.mk rest
  | _ => s

/-- The four-byte buffer `skip_bom` reads: the first bytes of the data,
zero-padded to length 4 (the Rust buffer is zero-initialised and a short
read leaves the tail zero). -/
def pad4 (data : List Nat) : List Nat :=
  data.take 4 ++ List.replicate (4 - data.length) 0

/-- Model of `skip_bom` (src/lib.rs:20-45): returns the final read-cursor
position.  The function seeks to 0, reads up to 4 bytes (leaving the
cursor at `min data.length 4`), then compares the zero-padded buffer
against the marks in source order — UTF-8, UTF-16BE, UTF-16LE, UTF-32BE,
UTF-32LE — seeking to the mark length on a match.  There is no final
else branch, so on no match the cursor stays where the read left it. -/
def skip_bom (data : List Nat) : Nat :=
  let buffer := pad4 data
  if buffer.take 3 = [0xef, 0xbb, 0xbf] then 3
  else if buffer.take 2 = [0xfe, 0xff] then 2
  else if buffer.take 2 = [0xff, 0xfe] then 2
  else if buffer.take 4 = [0x00, 0x00, 0xfe, 0xff] then 4
  else if buffer.take 4 = [0xff, 0xfe, 0x00, 0x00] then 4
  else min data.length 4

/-- Events produced by the external XML tokenizer: start element with its
ordered attribute list, character data, end element, any other event
(ignored by every loop), or a tokenizer read error. -/
inductive XmlEvent where
  | start (name : String) (attributes : List (String × String))
  | characters (text : String)
  | endElement (name : String)
  | other
  | parseError
deriving DecidableEq, Repr

/-- Cell value, the `Value` enum of src/lib.rs (floats as exact rationals,
see `parse_f64`). -/
inductive Value where
  | string (s : String)
  | integer (v : Int)
  | float (q : Rat)
  | empty
deriving DecidableEq, Repr

/-- The private `ValueType` enum of src/lib.rs. -/
inductive ValueType where
  | string
  | number
deriving DecidableEq, Repr

/-- The `Relation` struct: target path and relationship kind. -/
structure Relation where
  target : String
  kind : String
deriving DecidableEq, Repr

/-- The `Sheet` struct: sheet numeric id and relationship id. -/
structure Sheet where
  id : String
  relation : String
deriving DecidableEq, Repr

/-- The `Cell` struct. -/
structure Cell where
  row : Nat
  column : Nat
  value : Value
deriving DecidableEq, Repr

/-- The `WorkSheet` struct. -/
structure WorkSheet where
  cells : List Cell
deriving DecidableEq, Repr

/-- The `WorkBook` struct: the zip archive (entries in index order) and
the three resolved tables. -/
structure WorkBook where
  archive : List (String × List Nat)
  strings : List String
  relations : List (String × Relation)
  sheets : List (String × Sheet)
deriving DecidableEq, Repr

/-- HashMap insert on the association-list model: replaces any existing
binding of the key (last write wins, as in Rust `HashMap::insert`). -/
def insertA {α : Type} (l : List (String × α)) (k : String) (v : α) :
    List (String × α) :=
  (l.filter fun p => p.1 != k) ++ [(k, v)]

/-- Target of the first relation whose kind ends with the suffix, or the
empty string when none matches — the `path` scan shared by
`load_workbook` (src/lib.rs:198-204) and `load_shared_strings`
(src/lib.rs:164-170). -/
def findRelTarget (relations : List (String × Relation)) (suffix : String) :
    String :=
  match relations.find? (fun p => endsWithS p.2.kind suffix) with
  | some p => p.2.target
  | none => ""

/-- Model of `load_xml` (src/lib.rs:100-108): look the entry up by name
(missing entry is the zip error `by_name` returns), then hand the bytes
from the cursor position `skip_bom` leaves to the tokenizer. -/
def load_xml (tok : List Nat → List XmlEvent)
    (archive : List (String × List Nat)) (name : String) :
    Outcome (List XmlEvent) :=
  match List.lookup name archive with
  | none => .error .zip
  | some bytes => .ok (tok (bytes.drop (skip_bom bytes)))

/-- Mutable decoder state of `load_worksheet` (src/lib.rs:252-255):
current row, current column, current value kind, capture flag. -/
structure DecodeState where
  row : Nat
  column : Nat
  kind : ValueType
  capture : Bool
deriving DecidableEq, Repr

/-- Attribute scan of a `row` start element (src/lib.rs:262-266): each
`r` attribute is parsed as an unsigned integer into the row (last one
wins); a parse failure aborts with the integer-parse error. -/
def rowAttrFold : List (String × String) → Nat → Outcome Nat
  | [], r => .ok r
  | (n, v) :: rest, r =>
    if n = "r" then
      match parse_u64 v with
      | some k => rowAttrFold rest k
      | none => .error .parseInt
    else rowAttrFold rest r

/-- Attribute scan of a `c` start element (src/lib.rs:270-279): a `t`
attribute with value `s` selects the string kind, `n` the number kind,
anything else leaves the kind unchanged. -/
def kindAttrFold : List (String × String) → ValueType → ValueType
  | [], k => k
  | (n, v) :: rest, k =>
    if n = "t" then
      if v = "s" then kindAttrFold rest .string
      else if v = "n" then kindAttrFold rest .number
      else kindAttrFold rest k
    else kindAttrFold rest k

/-- Start-element transition of the worksheet decoder
(src/lib.rs:259-285): clear the capture flag; on `row` parse the `r`
attribute into the row and reset the column to 0; on `c` fold the `t`
attribute into the kind and increment the column; on `v` set the capture
flag. -/
def stepStart (s : DecodeState) (name : String)
    (attrs : List (String × String)) : Outcome DecodeState :=
  let s0 := { s with capture := false }
  if name = "row" then
    match rowAttrFold attrs s0.row with
    | .ok r => .ok { s0 with row := r, column := 0 }
    | .error e => .error e
    | .panicked => .panicked
  else if name = "c" then
    .ok { s0 with kind := kindAttrFold attrs s0.kind, column := s0.column + 1 }
  else if name = "v" then
    .ok { s0 with capture := true }
  else
    .ok s0

/-- Character-data decoding of the worksheet decoder (src/lib.rs:288-302).
String kind: the text is parsed as an unsigned integer (failure is the
integer-parse error) and used to index the shared-string list — the Rust
expression `self.strings[index]` panics when the index is out of range.
Number kind: integer parse first, float parse only on integer-parse
failure (float failure is the float-parse error). -/
def decodeValue (strings : List String) : ValueType → String → Outcome Value
  | .string, text =>
    match parse_u64 text with
    | none => .error .parseInt
    | some index =>
      match strings[index]? with
      | some v => .ok (.string v)
      | none => .panicked
  | .number, text =>
    match parse_i64 text with
    | some v => .ok (.integer v)
    | none =>
      match parse_f64 text with
      | some q => .ok (.float q)
      | none => .error .parseFloat

/-- Event loop of `load_worksheet` (src/lib.rs:257-311): threads the
decoder state over the event list and collects the decoded cells in
encounter order; a decode failure or tokenizer error aborts the loop. -/
def decodeLoop (strings : List String) :
    DecodeState → List XmlEvent → Outcome (List Cell)
  | _, [] => .ok []
  | s, ev :: rest =>
    match ev with
    | .start name attrs =>
      match stepStart s name attrs with
      | .ok s1 => decodeLoop strings s1 rest
      | .error e => .error e
      | .panicked => .panicked
    | .characters text =>
      if s.capture then
        match decodeValue strings s.kind text with
        | .ok v =>
          match decodeLoop strings s rest with
          | .ok cells => .ok (⟨s.row, s.column, v⟩ :: cells)
          | .error e => .error e
          | .panicked => .panicked
        | .error e => .error e
        | .panicked => .panicked
      else decodeLoop strings s rest
    | .endElement _ => decodeLoop strings s rest
    | .other => decodeLoop strings s rest
    | .parseError => .error .xmlRead

/-- Model of `load_worksheet` (src/lib.rs:248-313).  The sheet and
relation lookups use `HashMap` indexing, which panics on a missing key;
the worksheet part is then tokenized and decoded from the initial state
(row 0, column 0, string kind, capture off).  The workbook state is
returned alongside the outcome: the method takes `&mut self` but writes
none of the three tables. -/
def load_worksheet (tok : List Nat → List XmlEvent) (wb : WorkBook)
    (name : String) : Outcome WorkSheet × WorkBook :=
  match List.lookup name wb.sheets with
  | none => (.panicked, wb)
  | some sheet =>
    match List.lookup sheet.relation wb.relations with
    | none => (.panicked, wb)
    | some rel =>
      match load_xml tok wb.archive rel.target with
      | .error e => (.error e, wb)
      | .panicked => (.panicked, wb)
      | .ok events =>
        match decodeLoop wb.strings ⟨0, 0, .string, false⟩ events with
        | .ok cells => (.ok ⟨cells⟩, wb)
        | .error e => (.error e, wb)
        | .panicked => (.panicked, wb)

/-- Attribute scan of a `Relationship` element (src/lib.rs:118-131):
reads `Target` (with the leading slash stripped), `Id` and `Type`,
returning `(target, id, kind)`; missing attributes stay empty. -/
def relAttrFold : List (String × String) → String → String → String →
    String × String × String
  | [], target, id, kind => (target, id, kind)
  | (n, v) :: rest, target, id, kind =>
    if n = "Target" then relAttrFold rest (stripLeadingSlash v) id kind
    else if n = "Id" then relAttrFold rest target v kind
    else if n = "Type" then relAttrFold rest target id v
    else relAttrFold rest target id kind

/-- Event loop of `load_relations` (src/lib.rs:110-145): each
`Relationship` start element inserts a relation keyed by its id into the
workbook's relation table; a tokenizer error aborts, leaving the
insertions made so far in place. -/
def relLoop : List XmlEvent → WorkBook → Outcome Unit × WorkBook
  | [], wb => (.ok (), wb)
  | ev :: rest, wb =>
    match ev with
    | .start name attrs =>
      if name = "Relationship" then
        let tik := relAttrFold attrs "" "" ""
        relLoop rest
          { wb with relations := insertA wb.relations tik.2.1 ⟨tik.1, tik.2.2⟩ }
      else relLoop rest wb
    | .parseError => (.error .xmlRead, wb)
    | _ => relLoop rest wb

/-- Entry scan of `load_relationships` (src/lib.rs:147-160): walks the
archive entries in index order and feeds every entry whose name ends in
`.rels` through `load_xml` and `relLoop`. -/
def relsEntries (tok : List Nat → List XmlEvent) :
    List (String × List Nat) → WorkBook → Outcome Unit × WorkBook
  | [], wb => (.ok (), wb)
  | (name, _) :: rest, wb =>
    if endsWithS name ".rels" then
      match load_xml tok wb.archive name with
      | .error e => (.error e, wb)
      | .panicked => (.panicked, wb)
      | .ok events =>
        match relLoop events wb with
        | (.ok _, wb1) => relsEntries tok rest wb1
        | r => r
    else relsEntries tok rest wb

/-- Model of `load_relationships`: scans the archive snapshot taken at
entry (the archive itself is not modified). -/
def load_relationships (tok : List Nat → List XmlEvent) (wb : WorkBook) :
    Outcome Unit × WorkBook :=
  relsEntries tok wb.archive wb

/-- Attribute scan of a `sheet` element (src/lib.rs:213-223): reads
`name`, `sheetId` and `id`, returning `(name, sheetId, relationId)`. -/
def sheetAttrFold : List (String × String) → String → String → String →
    String × String × String
  | [], nm, sid, rid => (nm, sid, rid)
  | (n, v) :: rest, nm, sid, rid =>
    if n = "name" then sheetAttrFold rest v sid rid
    else if n = "sheetId" then sheetAttrFold rest nm v rid
    else if n = "id" then sheetAttrFold rest nm sid v
    else sheetAttrFold rest nm sid rid

/-- Event loop of `load_workbook` (src/lib.rs:206-236): each `sheet`
start element inserts a sheet record keyed by its display name. -/
def sheetLoop : List XmlEvent → WorkBook → Outcome Unit × WorkBook
  | [], wb => (.ok (), wb)
  | ev :: rest, wb =>
    match ev with
    | .start name attrs =>
      if name = "sheet" then
        let nsr := sheetAttrFold attrs "" "" ""
        sheetLoop rest
          { wb with sheets := insertA wb.sheets nsr.1 ⟨nsr.2.1, nsr.2.2⟩ }
      else sheetLoop rest wb
    | .parseError => (.error .xmlRead, wb)
    | _ => sheetLoop rest wb

/-- Model of `load_workbook` (src/lib.rs:197-238): the part path is the
target of the first relation whose kind ends in `/officeDocument` — the
empty string when none matches — and is then opened through `load_xml`
unconditionally. -/
def load_workbook (tok : List Nat → List XmlEvent) (wb : WorkBook) :
    Outcome Unit × WorkBook :=
  let path := findRelTarget wb.relations "/officeDocument"
  match load_xml tok wb.archive path with
  | .error e => (.error e, wb)
  | .panicked => (.panicked, wb)
  | .ok events => sheetLoop events wb

/-- Event loop of `load_shared_strings` (src/lib.rs:172-193): the store
flag is set exactly when the most recent start element is `t`; character
data seen while it is set is appended to the shared-string list. -/
def ssLoop : List XmlEvent → Bool → WorkBook → Outcome Unit × WorkBook
  | [], _, wb => (.ok (), wb)
  | ev :: rest, store, wb =>
    match ev with
    | .start name _ => ssLoop rest (name = "t") wb
    | .characters text =>
      if store then ssLoop rest store { wb with strings := wb.strings ++ [text] }
      else ssLoop rest store wb
    | .parseError => (.error .xmlRead, wb)
    | _ => ssLoop rest store wb

/-- Model of `load_shared_strings` (src/lib.rs:163-194): the part path is
the target of the first relation whose kind ends in `/sharedStrings` —
the empty string when none matches — and is then opened through
`load_xml` unconditionally. -/
def load_shared_strings (tok : List Nat → List XmlEvent) (wb : WorkBook) :
    Outcome Unit × WorkBook :=
  let path := findRelTarget wb.relations "/sharedStrings"
  match load_xml tok wb.archive path with
  | .error e => (.error e, wb)
  | .panicked => (.panicked, wb)
  | .ok events => ssLoop events false wb

/-- Model of `load` (src/lib.rs:315-320): relationships, then workbook
directory, then shared strings; the first failure aborts, keeping the
state written so far. -/
def load (tok : List Nat → List XmlEvent) (wb : WorkBook) :
    Outcome Unit × WorkBook :=
  match load_relationships tok wb with
  | (.ok _, wb1) =>
    match load_workbook tok wb1 with
    | (.ok _, wb2) => load_shared_strings tok wb2
    | r => r
  | r => r

/-- Trivial tokenizer fixture: every byte stream tokenizes to no events. -/
def tok0 : List Nat → List XmlEvent := fun _ => []

/-- Freshly opened workbook fixture: empty archive, all tables empty. -/
def wb0 : WorkBook := ⟨[], [], [], []⟩

/-- Tokenizer fixture producing one string-kind cell whose text is the
shared-string index 0. -/
def tok1 : List Nat → List XmlEvent := fun _ =>
  [XmlEvent.start "c" [("t", "s")], XmlEvent.start "v" [],
   XmlEvent.characters "0"]

/-- Workbook fixture with one sheet wired to an existing archive entry
and an empty shared-string table. -/
def wb1 : WorkBook :=
  ⟨[("xl/worksheets/sheet1.xml", [])], [],
   [("rId1", ⟨"xl/worksheets/sheet1.xml", "wsKind"⟩)],
   [("Sheet1", ⟨"1", "rId1"⟩)]⟩

/-- Workbook fixture like `wb1` but with one shared string, so that the
`tok1`-shaped worksheet decodes successfully. -/
def wb2 : WorkBook :=
  ⟨[("ws.xml", [])], ["hi"], [("rId1", ⟨"ws.xml", "k"⟩)],
   [("S", ⟨"1", "rId1"⟩)]⟩

/-- Worksheet event stream with two rows carrying `r` attributes 1 and 5,
one number-kind cell each. -/
def strm7 : List XmlEvent :=
  [XmlEvent.start "row" [("r", "1")], XmlEvent.start "c" [("t", "n")],
   XmlEvent.start "v" [], XmlEvent.characters "7",
   XmlEvent.start "row" [("r", "5")], XmlEvent.start "c" [("t", "n")],
   XmlEvent.start "v" [], XmlEvent.characters "8"]

/-- One number-kind cell block: `c` start, `v` start, character data. -/
def cBlock : List XmlEvent :=
  [XmlEvent.start "c" [("t", "n")], XmlEvent.start "v" [],
   XmlEvent.characters "0"]

/-- Concatenation of `n` cell blocks. -/
def cBlocks : Nat → List XmlEvent
  | 0 => []
  | n + 1 => cBlock ++ cBlocks n

/-- A `row` start element with `r` attribute 2 followed by `n` cell
blocks. -/
def rowStream (n : Nat) : List XmlEvent :=
  XmlEvent.start "row" [("r", "2")] :: cBlocks n

/-- C1 (amended): for every document and every sheet name not present in
the sheet table, `load_worksheet` panics — the `HashMap` index at
src/lib.rs:249 aborts on a missing key — instead of returning an error
value. -/
theorem claim1_missing_sheet_panics :
    ∀ (tok : List Nat → List XmlEvent) (wb : WorkBook) (name : String),
      List.lookup name wb.sheets = none →
      (load_worksheet tok wb name).1 = Outcome.panicked := by
  intro tok wb name h
  simp [load_worksheet, h]

/-- Witness for C1: the freshly opened workbook has no sheet named
Sheet1, and `load_worksheet` on it panics. -/
theorem claim1_missing_sheet_panics_w :
    List.lookup "Sheet1" wb0.sheets = none ∧
    (load_worksheet tok0 wb0 "Sheet1").1 = Outcome.panicked :=
  ⟨rfl, claim1_missing_sheet_panics tok0 wb0 "Sheet1" rfl⟩

/-- Counterexample to C1 as stated: on a workbook whose sheet table lacks
the requested name, `load_worksheet` does not return an error value — it
panics. -/
theorem claim1_counterexample :
    List.lookup "Sheet1" wb0.sheets = none ∧
    (load_worksheet tok0 wb0 "Sheet1").1 = Outcome.panicked ∧
    (load_worksheet tok0 wb0 "Sheet1").1.isError = false := by
  decide

/-- C2 (amended): for a text-kind cell, character data parsing to an
index at or beyond the shared-string table length makes the decoder
panic (the `Vec` index at src/lib.rs:291 aborts), while non-numeric text
is reported as an integer-parse error value. -/
theorem claim2_string_index_decoding :
    (∀ (strings : List String) (text : String) (n : Nat),
      parse_u64 text = some n → strings.length ≤ n →
      decodeValue strings ValueType.string text = Outcome.panicked) ∧
    (∀ (strings : List String) (text : String),
      parse_u64 text = none →
      decodeValue strings ValueType.string text = Outcome.error XlsxError.parseInt) := by
  constructor
  · intro strings text n hp hlen
    simp [decodeValue, hp, List.getElem?_eq_none hlen]
  · intro strings text hp
    simp [decodeValue, hp]

/-- Witness for C2: in a one-entry shared-string table, index text 1 is
out of range and panics, and non-numeric text is an error value. -/
theorem claim2_string_index_decoding_w :
    parse_u64 "1" = some 1 ∧ (["a"] : List String).length ≤ 1 ∧
    parse_u64 "x" = none ∧
    decodeValue ["a"] ValueType.string "1" = Outcome.panicked ∧
    decodeValue ["a"] ValueType.string "x" = Outcome.error XlsxError.parseInt :=
  ⟨by decide, by decide, by decide,
   claim2_string_index_decoding.1 ["a"] "1" 1 (by decide) (by decide),
   claim2_string_index_decoding.2 ["a"] "x" (by decide)⟩

/-- Counterexample to C2 as stated: a full `load_worksheet` run over a
worksheet whose text-kind cell carries index 0 against an empty
shared-string table panics instead of returning an error value. -/
theorem claim2_counterexample :
    (load_worksheet tok1 wb1 "Sheet1").1 = Outcome.panicked ∧
    (load_worksheet tok1 wb1 "Sheet1").1.isError = false := by
  decide

/-- C4 (code bug): on a buffer starting with plain XML bytes and no
byte-order mark, `skip_bom` leaves the read cursor at 4 — where the
4-byte probe read stopped — not at offset 0 as the spec requires: the
source has no final else branch resetting the cursor
(src/lib.rs:25-43). -/
theorem claim4_cursor_left_after_read :
    skip_bom [0x3c, 0x3f, 0x78, 0x6d, 0x6c] = 4 ∧
    skip_bom [0x3c, 0x3f, 0x78, 0x6d, 0x6c] ≠ 0 := by
  decide

/-- C5 (code bug): on the UTF-32 little-endian mark FF FE 00 00,
`skip_bom` advances only 2 bytes: the UTF-16LE test at src/lib.rs:33
runs before the UTF-32LE test at src/lib.rs:41, so the 2-byte byte-wise
matching shadows the 4-byte mark and the UTF-32LE branch is
unreachable. -/
theorem claim5_utf32le_shadowed :
    skip_bom [0xff, 0xfe, 0x00, 0x00] = 2 ∧
    skip_bom [0xff, 0xfe, 0x00, 0x00] ≠ 4 := by
  decide

/-- C6: number-kind decoding attempts the integer parse first — whenever
it succeeds the cell is an integer, so text 42 decodes to the integer 42
— and falls back to the float parse only on integer-parse failure, so
text 3.14 fails the integer parse and decodes to the float 3.14. -/
theorem claim6_number_decoding :
    (∀ (strings : List String) (text : String) (v : Int),
      parse_i64 text = some v →
      decodeValue strings ValueType.number text = Outcome.ok (Value.integer v)) ∧
    decodeValue [] ValueType.number "42" = Outcome.ok (Value.integer 42) ∧
    parse_i64 "3.14" = none ∧
    decodeValue [] ValueType.number "3.14" = Outcome.ok (Value.float (157/50)) := by
  refine ⟨?_, by decide, by decide, ?_⟩
  · intro strings text v h
    simp [decodeValue, h]
  · have h1 : decodeValue [] ValueType.number "3.14" =
        Outcome.ok (Value.float ((1 : Rat) * ((314 : Nat) : Rat) / 10 ^ 2)) := rfl
    rw [h1]
    norm_num

/-- Witness for C6: the integer-first rule applied at text 42 with a
nonempty shared-string table in scope. -/
theorem claim6_number_decoding_w :
    parse_i64 "42" = some 42 ∧
    decodeValue ["a"] ValueType.number "42" = Outcome.ok (Value.integer 42) :=
  ⟨by decide, claim6_number_decoding.1 ["a"] "42" 42 (by decide)⟩

/-- Decoding lemma: from any state positioned in row 2 at column k, a run
of n number-kind cell blocks emits exactly the cells with columns
k+1, ..., k+n in encounter order. -/
theorem decodeLoop_cBlocks (strings : List String) :
    ∀ (n k : Nat) (kd : ValueType) (cap : Bool),
      decodeLoop strings ⟨2, k, kd, cap⟩ (cBlocks n) =
        Outcome.ok ((List.range' (k + 1) n).map fun c => ⟨2, c, Value.integer 0⟩) := by
  intro n
  induction n with
  | zero => intro k kd cap; rfl
  | succ n ih =>
    intro k kd cap
    have hstep : decodeLoop strings ⟨2, k, kd, cap⟩ (cBlocks (n + 1)) =
        match decodeLoop strings ⟨2, k + 1, ValueType.number, true⟩ (cBlocks n) with
        | .ok cells => .ok (⟨2, k + 1, Value.integer 0⟩ :: cells)
        | .error e => .error e
        | .panicked => .panicked := rfl
    rw [hstep, ih (k + 1) ValueType.number true]
    simp [List.range'_succ]

/-- C7: a `row` start element sets the current row to the parsed value of
its `r` attribute — here 1 and 5 — whatever the previous state was, and
the two-row stream with `r` values 1 and 5 decodes to cells carrying rows
1 and 5 (not 1 and 2 from a running counter). -/
theorem claim7_row_from_attribute :
    (∀ s : DecodeState,
      stepStart s "row" [("r", "1")] = Outcome.ok ⟨1, 0, s.kind, false⟩) ∧
    (∀ s : DecodeState,
      stepStart s "row" [("r", "5")] = Outcome.ok ⟨5, 0, s.kind, false⟩) ∧
    decodeLoop [] ⟨0, 0, ValueType.string, false⟩ strm7 =
      Outcome.ok [⟨1, 1, Value.integer 7⟩, ⟨5, 1, Value.integer 8⟩] :=
  ⟨fun s => rfl, fun s => rfl, by decide⟩

/-- C8: every `c` start element increments the column counter by one
regardless of its attributes, the counter restarts at a `row` start
element, and a row of n cell blocks emits cells with columns 1, ..., n in
encounter order from any prior decoder state. -/
theorem claim8_column_counter :
    (∀ (s : DecodeState) (attrs : List (String × String)),
      stepStart s "c" attrs =
        Outcome.ok ⟨s.row, s.column + 1, kindAttrFold attrs s.kind, false⟩) ∧
    (∀ (strings : List String) (n : Nat) (s : DecodeState),
      decodeLoop strings s (rowStream n) =
        Outcome.ok ((List.range' 1 n).map fun c => ⟨2, c, Value.integer 0⟩)) := by
  refine ⟨fun s attrs => rfl, fun strings n s => ?_⟩
  have h0 : decodeLoop strings s (rowStream n) =
      decodeLoop strings ⟨2, 0, s.kind, false⟩ (cBlocks n) := rfl
  rw [h0, decodeLoop_cBlocks strings n 0 s.kind false]

/-- Frame lemma: `load_worksheet` returns its workbook unchanged in every
outcome — none of the arms of the function writes a table. -/
theorem load_worksheet_state (tok : List Nat → List XmlEvent) (wb : WorkBook)
    (name : String) : (load_worksheet tok wb name).2 = wb := by
  unfold load_worksheet
  repeat' split <;> try rfl

/-- Relationship-scan lemma: an archive scan that meets no entry named
with the `.rels` suffix loads no relations and succeeds. -/
theorem relsEntries_no_rels (tok : List Nat → List XmlEvent) :
    ∀ (entries : List (String × List Nat)) (wb : WorkBook),
      (∀ p ∈ entries, endsWithS p.1 ".rels" = false) →
      relsEntries tok entries wb = (Outcome.ok (), wb) := by
  intro entries
  induction entries with
  | nil => intro wb h; rfl
  | cons p rest ih =>
    intro wb h
    obtain ⟨nm, bytes⟩ := p
    have hp : endsWithS nm ".rels" = false := h (nm, bytes) (List.mem_cons_self _ _)
    simp [relsEntries, hp]
    exact ih wb fun q hq => h q (List.mem_cons_of_mem _ hq)

/-- C3 (amended): when no relation kind ends with the shared-strings
suffix (respectively the office-document suffix), the search path stays
empty and is looked up in the archive anyway, so — unless the archive
has an entry under the empty name — `load_shared_strings` (respectively
`load_workbook`, and hence `load`) fails with the missing-entry zip
error instead of succeeding with an empty table. -/
theorem claim3_absent_relationship_is_error :
    (∀ (tok : List Nat → List XmlEvent) (wb : WorkBook),
      wb.relations.find? (fun p => endsWithS p.2.kind "/sharedStrings") = none →
      List.lookup "" wb.archive = none →
      load_shared_strings tok wb = (Outcome.error XlsxError.zip, wb)) ∧
    (∀ (tok : List Nat → List XmlEvent) (wb : WorkBook),
      wb.relations.find? (fun p => endsWithS p.2.kind "/officeDocument") = none →
      List.lookup "" wb.archive = none →
      load_workbook tok wb = (Outcome.error XlsxError.zip, wb)) ∧
    (∀ (tok : List Nat → List XmlEvent) (wb : WorkBook),
      (∀ p ∈ wb.archive, endsWithS p.1 ".rels" = false) →
      wb.relations.find? (fun p => endsWithS p.2.kind "/officeDocument") = none →
      List.lookup "" wb.archive = none →
      (load tok wb).1 = Outcome.error XlsxError.zip) := by
  refine ⟨?_, ?_, ?_⟩
  · intro tok wb h1 h2
    simp [load_shared_strings, findRelTarget, h1, load_xml, h2]
  · intro tok wb h1 h2
    simp [load_workbook, findRelTarget, h1, load_xml, h2]
  · intro tok wb hrels h1 h2
    have hlr : load_relationships tok wb = (Outcome.ok (), wb) :=
      relsEntries_no_rels tok wb.archive wb hrels
    have hwb : load_workbook tok wb = (Outcome.error XlsxError.zip, wb) := by
      simp [load_workbook, findRelTarget, h1, load_xml, h2]
    simp [load, hlr, hwb]

/-- Witness for C3: the freshly opened workbook has no relations of
either kind, no empty-named archive entry, and both the shared-string
loader and the whole load fail with the zip error. -/
theorem claim3_absent_relationship_is_error_w :
    wb0.relations.find? (fun p => endsWithS p.2.kind "/sharedStrings") = none ∧
    wb0.relations.find? (fun p => endsWithS p.2.kind "/officeDocument") = none ∧
    List.lookup "" wb0.archive = none ∧
    load_shared_strings tok0 wb0 = (Outcome.error XlsxError.zip, wb0) ∧
    (load tok0 wb0).1 = Outcome.error XlsxError.zip :=
  ⟨rfl, rfl, rfl,
   claim3_absent_relationship_is_error.1 tok0 wb0 rfl rfl,
   claim3_absent_relationship_is_error.2.2 tok0 wb0
     (by intro p hp; simp [wb0] at hp) rfl rfl⟩

/-- Counterexample to C3 as stated: an archive with no relationships at
all makes `load` fail with the zip error rather than succeed with empty
tables. -/
theorem claim3_counterexample :
    wb0.relations = [] ∧
    (load tok0 wb0).1 = Outcome.error XlsxError.zip ∧
    (load tok0 wb0).1.isOk = false := by
  decide

/-- C9: a successful `load_worksheet` leaves the document in a state from
which repeating the call returns the same cell list (and the same
state). -/
theorem claim9_repeatable :
    ∀ (tok : List Nat → List XmlEvent) (wb : WorkBook) (name : String)
      (ws : WorkSheet) (wb' : WorkBook),
      load_worksheet tok wb name = (Outcome.ok ws, wb') →
      load_worksheet tok wb' name = (Outcome.ok ws, wb') := by
  intro tok wb name ws wb' h
  have h2 := load_worksheet_state tok wb name
  rw [h] at h2
  subst h2
  exact h

/-- Witness for C9: a concrete successful run, repeated by the theorem. -/
theorem claim9_repeatable_w :
    load_worksheet tok1 wb2 "S" =
      (Outcome.ok ⟨[⟨0, 1, Value.string "hi"⟩]⟩, wb2) :=
  claim9_repeatable tok1 wb2 "S" ⟨[⟨0, 1, Value.string "hi"⟩]⟩ wb2 (by decide)

/-- C10: `load_worksheet` never changes the three resolved tables,
whether it succeeds, errors or panics. -/
theorem claim10_tables_unchanged :
    ∀ (tok : List Nat → List XmlEvent) (wb : WorkBook) (name : String),
      (load_worksheet tok wb name).2.relations = wb.relations ∧
      (load_worksheet tok wb name).2.sheets = wb.sheets ∧
      (load_worksheet tok wb name).2.strings = wb.strings := by
  intro tok wb name
  rw [load_worksheet_state]
  exact ⟨rfl, rfl, rfl⟩
